import Mathlib

/-!
Shallow embedding of the maran-fill Ekuatia invoicing agent.

The definitions below are translated from the repository sources:
the error taxonomy in `src/types/errors.ts`, the test doubles in
`tests/mocks/ekuatia.ts`, and the agent workflow code in the agent
guide (`getCurrentConfiguration`, `configsMatch`,
`submitInvoiceWithRetry`, `isRetryable`, `EkuatiaInvoiceAgent`,
`CacheManager`).  JavaScript objects that flow through
`JSON.stringify` are modelled by an explicit `Json` value type,
effectful code is modelled by explicit state passing plus an effect
trace, and thrown exceptions become `Except` errors.
-/

namespace MaranFill

/-! ## JSON values and `JSON.stringify`

Configurations travelling through the cache and through `configsMatch`
are JavaScript objects; `Json` models them, including the `undefined`
member value that `JSON.stringify` skips inside objects.  `render` is a
model of `JSON.stringify` restricted to the value fragment appearing in
the repository (null, booleans, integers, plain strings without escape
characters, arrays, objects with insertion-ordered keys). -/

inductive Json where
  | null : Json
  | undef : Json
  | bool (b : Bool) : Json
  | num (n : Int) : Json
  | str (s : String) : Json
  | arr (elems : List Json) : Json
  | obj (fields : List (String × Json)) : Json
deriving Repr

mutual

def Json.render : Json → String
  | .null => "null"
  | .undef => "null"
  | .bool true => "true"
  | .bool false => "false"
  | .num n => toString n
  | .str s => "\"" ++ s ++ "\""
  | .arr es => "[" ++ String.intercalate "," (Json.renderList es) ++ "]"
  | .obj fs => "\x7b" ++ String.intercalate "," (Json.renderFields fs) ++ "\x7d"

def Json.renderList : List Json → List String
  | [] => []
  | e :: es => Json.render e :: Json.renderList es

def Json.renderFields : List (String × Json) → List String
  | [] => []
  | (_, .undef) :: fs => Json.renderFields fs
  | (k, v) :: fs => ("\"" ++ k ++ "\":" ++ Json.render v) :: Json.renderFields fs

end

/-- Model of `JSON.stringify` at top level: `undefined` serializes to no
string at all (JavaScript returns `undefined`), everything else to its
rendered text. -/
def Json.stringify : Json → Option String
  | .undef => none
  | v => some v.render

/-- Embeds `configsMatch` (agent guide): two configurations match exactly
when their `JSON.stringify` serializations are identical. -/
def configsMatch (config1 config2 : Json) : Bool :=
  Json.stringify config1 == Json.stringify config2

/-! ## Error taxonomy (`src/types/errors.ts`)

The class hierarchy only uses the `code` string to classify; the
structure keeps the fields the `isRetryable` method and the recovery
machinery read. -/

structure EkuatiaBaseError where
  message : String
  code : String
  recovery : Option String

/-- Embeds the `retryableCodes` list inside
`EkuatiaBaseError.isRetryable` in `src/types/errors.ts` (line 110). -/
def retryableCodes : List String :=
  ["TIMEOUT", "TEMPORARY_UNAVAILABLE", "RATE_LIMITED", "SYSTEM_ERROR"]

/-- Embeds the `isRetryable` method of `EkuatiaBaseError`
(`src/types/errors.ts`, lines 109-112). -/
def EkuatiaBaseError.isRetryable (e : EkuatiaBaseError) : Bool :=
  retryableCodes.contains e.code

/-- Embeds the `SystemError` subclass constructor of
`src/types/errors.ts`: it always passes the machine code
`"SYSTEM_ERROR"` to the base constructor. -/
def mkSystemError (message : String) : EkuatiaBaseError :=
  { message := message
    code := "SYSTEM_ERROR"
    recovery :=
      some "Intente nuevamente en unos minutos. Si el problema persiste, contacte soporte." }

/-- Embeds the standalone `isRetryable(errorCode)` helper of the agent
guide retry strategy (lines 675-679). -/
def isRetryable (errorCode : String) : Bool :=
  (["TIMEOUT", "TEMPORARY_UNAVAILABLE", "RATE_LIMITED"]).contains errorCode

/-! ## Retry strategy (`submitInvoiceWithRetry`, agent guide lines 651-673)

The loop is embedded with an explicit event trace: each submission
attempt and each `sleep(backoffMs)` call is recorded in order.  The
behaviour of the remote `POST /documento/crear` is supplied as a
function from the attempt number to an `Except` outcome whose error is
the classified error code. -/

inductive RetryEvent where
  | attempt (n : Nat) : RetryEvent
  | slept (ms : Nat) : RetryEvent
deriving DecidableEq, Repr

/-- One pass of the `for (attempt = 1; attempt <= maxRetries; attempt++)`
loop body of `submitInvoiceWithRetry`: on success return the response;
on a retryable error sleep `2^(attempt-1) * 1000` ms and continue; on a
non-retryable error rethrow; when attempts are exhausted rethrow the
last error (`""` stands for the undefined `lastError` when
`maxRetries = 0`). -/
def retryLoop {α : Type} (f : Nat → Except String α) :
    Nat → Nat → Option String → Except String α × List RetryEvent
  | _, 0, lastError => (.error (lastError.getD ""), [])
  | attempt, remaining + 1, _ =>
    match f attempt with
    | .ok response => (.ok response, [.attempt attempt])
    | .error e =>
      if isRetryable e then
        let rest := retryLoop f (attempt + 1) remaining (some e)
        (rest.1, .attempt attempt :: .slept (2 ^ (attempt - 1) * 1000) :: rest.2)
      else
        (.error e, [.attempt attempt])

/-- Embeds `submitInvoiceWithRetry(invoiceData, maxRetries = 3)` of the
agent guide: attempts start at 1 and the default bound is 3. -/
def submitInvoiceWithRetry {α : Type} (f : Nat → Except String α)
    (maxRetries : Nat) : Except String α × List RetryEvent :=
  retryLoop f 1 maxRetries none

/-! ## Mock login API (`tests/mocks/ekuatia.ts`, lines 216-242) -/

structure LoginCredentials where
  username : String
  password : String
  emissionMode : String

/-- Discriminates the four values `mockLoginApi` can syntactically
return: the success response and the three canned error responses. -/
inductive MockLoginResult where
  | loginResponse : MockLoginResult
  | invalidCredentials : MockLoginResult
  | rucInactive : MockLoginResult
  | approvalNotFound : MockLoginResult
deriving DecidableEq, Repr

/-- Embeds `MOCK_CREDENTIALS` of `tests/mocks/ekuatia.ts`. -/
def MOCK_CREDENTIALS : LoginCredentials :=
  { username := "5452"
    password := "test_marangatu_key_12345"
    emissionMode := "SOLUCION GRATUITA" }

/-- Embeds `mockLoginApi` of `tests/mocks/ekuatia.ts`: the username and
password gates come first and both return `MOCK_ERROR_INVALID_CREDENTIALS`;
the `9999999` and `8888888` status branches follow; otherwise
`MOCK_LOGIN_RESPONSE` is returned. -/
def mockLoginApi (credentials : LoginCredentials) : MockLoginResult :=
  if credentials.username ≠ MOCK_CREDENTIALS.username then
    .invalidCredentials
  else if credentials.password ≠ MOCK_CREDENTIALS.password then
    .invalidCredentials
  else if credentials.username = "9999999" then
    .rucInactive
  else if credentials.username = "8888888" then
    .approvalNotFound
  else
    .loginResponse

/-! ## MockCache (`tests/mocks/ekuatia.ts`, lines 298-344)

The backing `Map<string, {data, expiry}>` is modelled as a function
from keys to optional entries, and `Date.now()` becomes an explicit
`now` argument at every call. -/

def MockCacheState : Type := String → Option (Json × Int)

/-- Default TTL used by `MockCache.set` (`ttlMs: number = 7776000000`,
the source comment says 90 days). -/
def mockCacheDefaultTtlMs : Int := 7776000000

/-- Embeds `MockCache.set`: stores `{data, expiry: Date.now() + ttlMs}`
under the key, overwriting whatever was there. -/
def MockCache.set (cache : MockCacheState) (now : Int) (key : String)
    (data : Json) (ttlMs : Int) : MockCacheState :=
  fun k => if k = key then some (data, now + ttlMs) else cache k

/-- Embeds `MockCache.get`: a missing or expired entry is deleted and
`null` is returned; otherwise the stored data is returned and the map
is untouched.  The pair carries the result and the cache state after
the call. -/
def MockCache.get (cache : MockCacheState) (now : Int) (key : String) :
    Option Json × MockCacheState :=
  match cache key with
  | none => (none, fun k => if k = key then none else cache k)
  | some (data, expiry) =>
    if now > expiry then
      (none, fun k => if k = key then none else cache k)
    else
      (some data, cache)

/-- Embeds `MockCache.delete`. -/
def MockCache.delete (cache : MockCacheState) (key : String) : MockCacheState :=
  fun k => if k = key then none else cache k

/-- Embeds `MockCache.has`: the entry must exist and
`Date.now() <= entry.expiry` must hold. -/
def MockCache.has (cache : MockCacheState) (now : Int) (key : String) : Bool :=
  match cache key with
  | none => false
  | some (_, expiry) => decide (now ≤ expiry)

/-! ## CacheManager (`agent guide, lines 1393-1412`) -/

/-- Embeds the `CacheInvalidationTrigger` union type of the agent
guide. -/
inductive CacheInvalidationTrigger where
  | rucStatusChange
  | establishmentUpdate
  | cscUpdate
  | timbradoExpiration
  | configurationNotification
deriving DecidableEq, Repr

def CacheInvalidationTrigger.name : CacheInvalidationTrigger → String
  | .rucStatusChange => "ruc_status_change"
  | .establishmentUpdate => "establishment_update"
  | .cscUpdate => "csc_update"
  | .timbradoExpiration => "timbrado_expiration"
  | .configurationNotification => "configuration_notification"

/-- State of the `CacheManager` singleton: its `Map<string, any>`. -/
def CacheManagerState : Type := String → Option Json

/-- Embeds `CacheManager.invalidateConfig(ruc, trigger)`: deletes the
`ekuatia_config_${ruc}` entry and logs the trigger.  The pair carries
the new map and the emitted log lines. -/
def CacheManager.invalidateConfig (cache : CacheManagerState) (ruc : String)
    (trigger : CacheInvalidationTrigger) : CacheManagerState × List String :=
  (fun k => if k = "ekuatia_config_" ++ ruc then none else cache k,
   ["Cache invalidated for RUC " ++ ruc ++ " due to: " ++ trigger.name])

/-! ## Invoice data model (agent guide interfaces) -/

/-- Embeds the `InvoiceItem` interface. -/
structure InvoiceItem where
  codigo_producto : String
  descripcion : String
  cantidad : Int
  precio_unitario : Int
  monto_iva : Int
  monto_total : Int
deriving DecidableEq, Repr

/-- Embeds the `InvoiceSummary` interface (the caller-supplied
`resumen`). -/
structure InvoiceSummary where
  subtotal : Int
  total_iva : Int
  total_general : Int
deriving DecidableEq, Repr

/-- Embeds the `CalculatedTotals` interface (the totals the agent
derives from the line items). -/
structure CalculatedTotals where
  subtotal : Int
  total_iva : Int
  total_general : Int
deriving DecidableEq, Repr

/-- Embeds the `tipo_documento` union
`'FACTURA ELECTRONICA' | 'NOTA_CREDITO' | 'NOTA_DEBITO'`. -/
inductive DocumentType where
  | facturaElectronica
  | notaCredito
  | notaDebito
deriving DecidableEq, Repr

/-- Embeds the `InvoiceData` interface.  Optional fields are `Option`;
for the numeric optional fields the JavaScript truthiness tests in the
validator are modelled on the `Option Int` value. -/
structure InvoiceData where
  fecha : String
  receptor_ruc : String
  receptor_nombre : String
  receptor_direccion : Option String
  tipo_documento : Option DocumentType
  establecimiento : Option Int
  punto_expedicion : Option Int
  items : List InvoiceItem
  resumen : InvoiceSummary
  observaciones : Option String
deriving DecidableEq, Repr

/-- Embeds the `issuer_data` part of the `EkuatiaConfig` interface. -/
structure IssuerData where
  numero_timbrado : String
  establecimiento : Int
  tipo_documento : DocumentType
  actividad_economica : String
  fecha_inicio_vigencia : String
  punto_expedicion : Int
  tipo_contribuyente : String
  codigo_seguridad_contribuyente : String
deriving DecidableEq, Repr

/-- Embeds the `EkuatiaConfig` interface. -/
structure EkuatiaConfig where
  modality : String
  logo : Option String
  issuer_data : IssuerData
  razon_social : Option String
  direccion : Option String
deriving DecidableEq, Repr

/-- Embeds the `ProfileData` interface of the agent guide
pseudo-code. -/
structure ProfileData where
  ruc_with_dv : String
  business_name : String
  ruc_status : String
  numero_timbrado : String
  actividad_economica : String
  fecha_aprobacion : String
  tipo_contribuyente : String
  csc : String
deriving DecidableEq, Repr

/-- Embeds the `InvoiceResponse` interface. -/
structure InvoiceResponse where
  documento_id : String
  codigo_control : String
  fecha_emision : String
deriving DecidableEq, Repr

/-! ## Agent errors and effects

The pseudo-code throws instances of four custom `Error` subclasses,
each carrying a message; `AgentError` is their sum.  `Effect` records
every outward-visible action of the workflow in order: confirmation
requests to the user, remote `POST` calls, and log lines. -/

inductive AgentError where
  | authenticationError (msg : String)
  | configurationError (msg : String)
  | invoiceCreationError (msg : String)
  | configurationRetrievalError (msg : String)
deriving DecidableEq, Repr

inductive Effect where
  | requestInvoiceConfirmation (inv : InvoiceData) (totals : CalculatedTotals)
  | requestConfigurationConfirmation
  | postSubmitInvoice (items : List InvoiceItem) (resumen : InvoiceSummary)
  | postSaveConfiguration
  | logWarn (msg : String)
  | logError (msg : String)
deriving DecidableEq, Repr

/-- Embeds `EkuatiaInvoiceAgent.calculateInvoiceTotals`: the subtotal
reduces `cantidad * precio_unitario` over the items, the IVA total
reduces `monto_iva`, and the grand total is their sum. -/
def calculateInvoiceTotals (invoiceData : InvoiceData) : CalculatedTotals :=
  let subtotal :=
    invoiceData.items.foldl (fun sum item => sum + item.cantidad * item.precio_unitario) 0
  let totalIva :=
    invoiceData.items.foldl (fun sum item => sum + item.monto_iva) 0
  let totalGeneral := subtotal + totalIva
  { subtotal := subtotal, total_iva := totalIva, total_general := totalGeneral }

/-- Embeds the `allowedTypes` list of
`EkuatiaInvoiceAgent.validateInvoiceAgainstConfig`. -/
def allowedTypes : List DocumentType :=
  [.facturaElectronica, .notaCredito, .notaDebito]

/-- Third guard of `EkuatiaInvoiceAgent.validateInvoiceAgainstConfig`:
`if (invoiceData.punto_expedicion && invoiceData.punto_expedicion !== 1)`.
JavaScript truthiness makes an absent field or the number `0` skip the
check. -/
def validateDispatchPoint (invoiceData : InvoiceData) : Except AgentError Unit :=
  match invoiceData.punto_expedicion with
  | some v =>
    if v ≠ 0 ∧ v ≠ 1 then
      .error (.invoiceCreationError
        "Dispatch point must be 1 (single point constraint)")
    else .ok ()
  | none => .ok ()

/-- Second guard of `EkuatiaInvoiceAgent.validateInvoiceAgainstConfig`:
`if (invoiceData.establecimiento && invoiceData.establecimiento !== 1)`,
then fall through to the dispatch-point guard. -/
def validateEstablishment (invoiceData : InvoiceData) : Except AgentError Unit :=
  match invoiceData.establecimiento with
  | some v =>
    if v ≠ 0 ∧ v ≠ 1 then
      .error (.invoiceCreationError
        "Establishment must be 1 (single establishment constraint)")
    else validateDispatchPoint invoiceData
  | none => validateDispatchPoint invoiceData

/-- Embeds `EkuatiaInvoiceAgent.validateInvoiceAgainstConfig`.  Each
`if (field && ...)` guard tests JavaScript truthiness first: an absent
field or the number `0` skips the check.  The `config` argument is
received but never read, exactly as in the source. -/
def validateInvoiceAgainstConfig (invoiceData : InvoiceData)
    (_config : EkuatiaConfig) : Except AgentError Unit :=
  match invoiceData.tipo_documento with
  | some t =>
    if ¬ allowedTypes.contains t then
      .error (.invoiceCreationError
        "Invalid document type. Allowed: FACTURA ELECTRONICA, NOTA_CREDITO, NOTA_DEBITO")
    else
      validateEstablishment invoiceData
  | none => validateEstablishment invoiceData

/-- Embeds `EkuatiaInvoiceAgent.validateAndConfirmInvoice`: calculate
the totals, validate against the configuration, then request user
confirmation with the calculated totals; a `false` response throws
`InvoiceCreationError('User cancelled invoice posting')`.  The boolean
argument is the response the external confirmation channel returns. -/
def validateAndConfirmInvoice (invoiceData : InvoiceData)
    (config : EkuatiaConfig) (confirmResponse : Bool) :
    Except AgentError Unit × List Effect :=
  let calculatedTotals := calculateInvoiceTotals invoiceData
  match validateInvoiceAgainstConfig invoiceData config with
  | .error e => (.error e, [])
  | .ok _ =>
    let effects := [Effect.requestInvoiceConfirmation invoiceData calculatedTotals]
    if confirmResponse then (.ok (), effects)
    else (.error (.invoiceCreationError "User cancelled invoice posting"), effects)

/-- Embeds `EkuatiaInvoiceAgent.createInvoice`: posts the payload —
whose `detalles_factura` carries the caller-supplied `items` and
`resumen` unchanged — to `/documento/crear`.  The submission outcome is
supplied by the environment; a failing response throws
`InvoiceCreationError` with the response message. -/
def createInvoice (invoiceData : InvoiceData) (_config : EkuatiaConfig)
    (submitOutcome : Except String InvoiceResponse) :
    Except AgentError InvoiceResponse × List Effect :=
  let effects := [Effect.postSubmitInvoice invoiceData.items invoiceData.resumen]
  match submitOutcome with
  | .ok response => (.ok response, effects)
  | .error msg => (.error (.invoiceCreationError msg), effects)

/-- Embeds the phase-2/phase-3 sequencing of
`EkuatiaInvoiceAgent.processInvoice` once `ensureConfigured` has
produced `config`: `validateAndConfirmInvoice` runs first and any
throw aborts the flow before `createInvoice` is reached. -/
def invoiceFlow (invoiceData : InvoiceData) (config : EkuatiaConfig)
    (confirmResponse : Bool) (submitOutcome : Except String InvoiceResponse) :
    Except AgentError InvoiceResponse × List Effect :=
  let validated := validateAndConfirmInvoice invoiceData config confirmResponse
  match validated.1 with
  | .error e => (.error e, validated.2)
  | .ok _ =>
    let created := createInvoice invoiceData config submitOutcome
    (created.1, validated.2 ++ created.2)

/-- Embeds `EkuatiaInvoiceAgent.configureInvoicer`: builds the proposed
configuration from the profile, requests user confirmation, and only
after an affirmative response posts to `/configuracion/guardar`; a
`false` response throws
`ConfigurationError('User cancelled configuration setup')`. -/
def configureInvoicer (profile : ProfileData) (confirmResponse : Bool)
    (saveOutcome : Except String Unit) :
    Except AgentError EkuatiaConfig × List Effect :=
  let configData : EkuatiaConfig :=
    { modality := "BASICA"
      logo := none
      issuer_data :=
        { numero_timbrado := profile.numero_timbrado
          establecimiento := 1
          tipo_documento := .facturaElectronica
          actividad_economica := profile.actividad_economica
          fecha_inicio_vigencia := profile.fecha_aprobacion
          punto_expedicion := 1
          tipo_contribuyente := profile.tipo_contribuyente
          codigo_seguridad_contribuyente := profile.csc }
      razon_social := none
      direccion := none }
  if ¬ confirmResponse then
    (.error (.configurationError "User cancelled configuration setup"),
     [Effect.requestConfigurationConfirmation])
  else
    match saveOutcome with
    | .ok _ =>
      (.ok configData,
       [Effect.requestConfigurationConfirmation, Effect.postSaveConfiguration])
    | .error msg =>
      (.error (.configurationError msg),
       [Effect.requestConfigurationConfirmation, Effect.postSaveConfiguration])

/-! ## Configuration retrieval (`getCurrentConfiguration`, agent guide)

Configurations live in the cache as JSON values because the only
comparison the function performs, `configsMatch`, goes through
`JSON.stringify`.  The cached entry for `ekuatia_config_${ruc}` enters
as an `Option Json`; the authoritative `GET /configuracion/actual` call
is supplied as an `Except` outcome.  The triple returned is (result,
cache entry for the key after the call, log lines). -/

def getCurrentConfiguration (cachedConfig : Option Json)
    (remoteFetch : Except Unit Json) (ruc : String) :
    Except AgentError Json × Option Json × List Effect :=
  match cachedConfig with
  | some cached =>
    match remoteFetch with
    | .ok currentSystemConfig =>
      if ¬ configsMatch cached currentSystemConfig then
        (.ok currentSystemConfig, some cached,
         [Effect.logWarn ("Config mismatch for RUC " ++ ruc ++ ", using system config")])
      else
        (.ok cached, some cached, [])
    | .error _ =>
      (.error (.configurationRetrievalError "Unable to get current config"),
       some cached,
       [Effect.logError ("Failed to retrieve configuration for RUC " ++ ruc)])
  | none =>
    match remoteFetch with
    | .ok systemConfig =>
      (.ok systemConfig, some systemConfig, [])
    | .error _ =>
      (.error (.configurationRetrievalError "Unable to get current config"),
       none,
       [Effect.logError ("Failed to retrieve configuration for RUC " ++ ruc)])

/-! ## Concrete fixtures

Values taken from the repository test data (`MOCK_PROFILE`,
`createInvoiceExample`) and used to instantiate the theorems below. -/

/-- Configuration as `configureInvoicer` would build it from
`MOCK_PROFILE`. -/
def sampleConfig : EkuatiaConfig :=
  { modality := "BASICA"
    logo := none
    issuer_data :=
      { numero_timbrado := "12561412"
        establecimiento := 1
        tipo_documento := .facturaElectronica
        actividad_economica := "Otras actividades de servicios personales n.c.p."
        fecha_inicio_vigencia := "20/03/2024"
        punto_expedicion := 1
        tipo_contribuyente := "FISICO"
        codigo_seguridad_contribuyente := "CSC_VALUE_123456" }
    razon_social := none
    direccion := none }

/-- Embeds `MOCK_PROFILE` of `tests/mocks/ekuatia.ts`. -/
def sampleProfile : ProfileData :=
  { ruc_with_dv := "5452-1"
    business_name := "Teresa De Jesus"
    ruc_status := "Activo"
    numero_timbrado := "12561412"
    actividad_economica := "Otras actividades de servicios personales n.c.p."
    fecha_aprobacion := "20/03/2024"
    tipo_contribuyente := "FISICO"
    csc := "CSC_VALUE_123456" }

/-- A successful submission response. -/
def sampleResponse : InvoiceResponse :=
  { documento_id := "DOC-001", codigo_control := "CDC-001", fecha_emision := "25/01/2026" }

/-- The single line item of `createInvoiceExample` in the agent guide:
quantity 1, unit price 500000, tax 0. -/
def consultItem : InvoiceItem :=
  { codigo_producto := "PROD001"
    descripcion := "Servicio de consultoria"
    cantidad := 1
    precio_unitario := 500000
    monto_iva := 0
    monto_total := 500000 }

/-- The invoice of `createInvoiceExample`: its summary reconciles with
its single item. -/
def validInvoice : InvoiceData :=
  { fecha := "25/01/2026"
    receptor_ruc := "1234567"
    receptor_nombre := "Cliente S.A."
    receptor_direccion := none
    tipo_documento := none
    establecimiento := none
    punto_expedicion := none
    items := [consultItem]
    resumen := { subtotal := 500000, total_iva := 0, total_general := 500000 }
    observaciones := none }

/-- The same invoice with a caller-supplied summary that does NOT
reconcile with the line items (999999 against a computed 500000). -/
def mismatchInvoice : InvoiceData :=
  { validInvoice with
      resumen := { subtotal := 999999, total_iva := 0, total_general := 999999 } }

/-- The same invoice with `establecimiento: 0` — present, different
from 1, but falsy in JavaScript. -/
def establishmentZeroInvoice : InvoiceData :=
  { validInvoice with establecimiento := some 0 }

/-- The same invoice with `establecimiento: 2`. -/
def establishmentTwoInvoice : InvoiceData :=
  { validInvoice with establecimiento := some 2 }

/-- The same invoice with `punto_expedicion: 2`. -/
def dispatchTwoInvoice : InvoiceData :=
  { validInvoice with punto_expedicion := some 2 }

/-! ## Theorems -/

/-- Validation in `validateInvoiceAgainstConfig` never fails on the
document type: the `allowedTypes` list contains every member of the
`tipo_documento` union, so the function always reduces to the
establishment guard. -/
lemma validate_ignores_document_type (inv : InvoiceData) (config : EkuatiaConfig) :
    validateInvoiceAgainstConfig inv config = validateEstablishment inv := by
  cases htd : inv.tipo_documento with
  | none => simp [validateInvoiceAgainstConfig, htd]
  | some t => cases t <;> simp [validateInvoiceAgainstConfig, htd, allowedTypes]

/-- Claim C1 (code bug): the claim says a summary that does not
reconcile with the line-item arithmetic yields
`InvoiceValidationFailure` and zero remote calls, but the code never
compares the calculated totals with the caller-supplied `resumen`: on
an invoice whose items total 500000 while `resumen` says 999999, the
workflow raises no validation error and performs the remote
`POST /documento/crear`, forwarding the mismatched `resumen`
unchanged. -/
theorem mismatched_summary_still_submitted :
    calculateInvoiceTotals mismatchInvoice =
      { subtotal := 500000, total_iva := 0, total_general := 500000 } ∧
    mismatchInvoice.resumen =
      { subtotal := 999999, total_iva := 0, total_general := 999999 } ∧
    invoiceFlow mismatchInvoice sampleConfig true (.ok sampleResponse) =
      (.ok sampleResponse,
       [Effect.requestInvoiceConfirmation mismatchInvoice
          { subtotal := 500000, total_iva := 0, total_general := 500000 },
        Effect.postSubmitInvoice mismatchInvoice.items mismatchInvoice.resumen]) :=
  ⟨rfl, rfl, rfl⟩

/-- Claim C2 (counterexample): the claim says `isRetryable` is true
exactly for TIMEOUT, TEMPORARY_UNAVAILABLE and RATE_LIMITED, yet the
`EkuatiaBaseError.isRetryable` method of `src/types/errors.ts` also
returns true for a `SystemError`, whose code SYSTEM_ERROR is none of
those three. -/
theorem baseError_isRetryable_system_error :
    (mkSystemError "Network failure").isRetryable = true ∧
    isRetryable "SYSTEM_ERROR" = false ∧
    (mkSystemError "Network failure").code ≠ "TIMEOUT" ∧
    (mkSystemError "Network failure").code ≠ "TEMPORARY_UNAVAILABLE" ∧
    (mkSystemError "Network failure").code ≠ "RATE_LIMITED" := by
  decide

/-- Claim C2 (amended): the standalone `isRetryable` helper of the
retry strategy returns true exactly for the three transport codes
TIMEOUT, TEMPORARY_UNAVAILABLE, RATE_LIMITED; the
`EkuatiaBaseError.isRetryable` method returns true exactly for those
three codes plus SYSTEM_ERROR; every other code is treated as
non-retryable by both. -/
theorem isRetryable_code_characterization (e : EkuatiaBaseError) (code : String) :
    (e.isRetryable = true ↔
      (e.code = "TIMEOUT" ∨ e.code = "TEMPORARY_UNAVAILABLE" ∨
       e.code = "RATE_LIMITED" ∨ e.code = "SYSTEM_ERROR")) ∧
    (isRetryable code = true ↔
      (code = "TIMEOUT" ∨ code = "TEMPORARY_UNAVAILABLE" ∨ code = "RATE_LIMITED")) := by
  constructor
  · simp [EkuatiaBaseError.isRetryable, retryableCodes]
  · simp [isRetryable]

/-- Claim C3 (counterexample): the claim says a cache/remote mismatch
refreshes the cache with the authoritative value, but on a concrete
mismatching pair `getCurrentConfiguration` returns the authoritative
copy and logs the mismatch while the cache entry keeps the stale
value, which differs from the authoritative one. -/
theorem config_mismatch_leaves_stale_cache :
    configsMatch (Json.obj [("modality", Json.str "BASICA")])
      (Json.obj [("modality", Json.str "AVANZADA")]) = false ∧
    getCurrentConfiguration (some (Json.obj [("modality", Json.str "BASICA")]))
      (.ok (Json.obj [("modality", Json.str "AVANZADA")])) "5452" =
      (.ok (Json.obj [("modality", Json.str "AVANZADA")]),
       some (Json.obj [("modality", Json.str "BASICA")]),
       [Effect.logWarn "Config mismatch for RUC 5452, using system config"]) ∧
    some (Json.obj [("modality", Json.str "BASICA")])
      ≠ some (Json.obj [("modality", Json.str "AVANZADA")]) := by
  refine ⟨rfl, rfl, ?_⟩
  simp

/-- Claim C3 (amended): when the cached and authoritative
configurations disagree, `getCurrentConfiguration` returns the
authoritative copy and logs a mismatch event, but it does not refresh
the cache — the stale cached entry is left in place. -/
theorem getCurrentConfiguration_mismatch_result (cached remote : Json) (ruc : String)
    (h : configsMatch cached remote = false) :
    getCurrentConfiguration (some cached) (.ok remote) ruc =
      (.ok remote, some cached,
       [Effect.logWarn ("Config mismatch for RUC " ++ ruc ++ ", using system config")]) := by
  simp [getCurrentConfiguration, h]

/-- Witness for claim C3 at a concrete mismatching pair. -/
theorem getCurrentConfiguration_mismatch_result_witness :
    configsMatch (Json.obj [("logo", Json.null)]) (Json.obj [("logo", Json.str "x")]) = false ∧
    getCurrentConfiguration (some (Json.obj [("logo", Json.null)]))
      (.ok (Json.obj [("logo", Json.str "x")])) "80012345" =
      (.ok (Json.obj [("logo", Json.str "x")]),
       some (Json.obj [("logo", Json.null)]),
       [Effect.logWarn ("Config mismatch for RUC " ++ "80012345" ++ ", using system config")]) :=
  ⟨rfl, getCurrentConfiguration_mismatch_result (Json.obj [("logo", Json.null)])
          (Json.obj [("logo", Json.str "x")]) "80012345" rfl⟩

/-- Claim C4 (confirmed): a submission failing with a retryable
transport error on every attempt makes exactly 3 attempts, the delays
between consecutive attempts are 1000 ms and 2000 ms (the trailing
4000 ms backoff precedes no further attempt), and the classified error
of the last attempt is rethrown unchanged. -/
theorem submitInvoiceWithRetry_three_attempts (e : String) (h : isRetryable e = true) :
    submitInvoiceWithRetry (fun _ => (.error e : Except String InvoiceResponse)) 3 =
      (.error e,
       [.attempt 1, .slept 1000, .attempt 2, .slept 2000, .attempt 3, .slept 4000]) ∧
    ([RetryEvent.attempt 1, .slept 1000, .attempt 2, .slept 2000,
      .attempt 3, .slept 4000].countP
        (fun ev => match ev with | .attempt _ => true | _ => false)) = 3 := by
  constructor
  · simp [submitInvoiceWithRetry, retryLoop, h]
  · decide

/-- Witness for claim C4 at the concrete retryable code TIMEOUT. -/
theorem submitInvoiceWithRetry_three_attempts_witness :
    isRetryable "TIMEOUT" = true ∧
    (submitInvoiceWithRetry (fun _ => (.error "TIMEOUT" : Except String InvoiceResponse)) 3 =
      (.error "TIMEOUT",
       [.attempt 1, .slept 1000, .attempt 2, .slept 2000, .attempt 3, .slept 4000]) ∧
     ([RetryEvent.attempt 1, .slept 1000, .attempt 2, .slept 2000,
       .attempt 3, .slept 4000].countP
         (fun ev => match ev with | .attempt _ => true | _ => false)) = 3) :=
  ⟨by decide, submitInvoiceWithRetry_three_attempts "TIMEOUT" (by decide)⟩

/-- Claim C5 (confirmed): a `false` response from the confirmation
channel makes the invoice flow stop with the user-cancellation error
(`InvoiceCreationError` with message "User cancelled invoice posting",
the code's encoding of the UserCancelled kind) and the only effect
performed is the confirmation request itself — in particular no
`POST /documento/crear`; likewise `configureInvoicer` stops with
`ConfigurationError` "User cancelled configuration setup" and performs
no `POST /configuracion/guardar`. -/
theorem confirmation_denial_aborts (inv : InvoiceData) (config : EkuatiaConfig)
    (submitOutcome : Except String InvoiceResponse)
    (profile : ProfileData) (saveOutcome : Except String Unit)
    (h : validateInvoiceAgainstConfig inv config = .ok ()) :
    invoiceFlow inv config false submitOutcome =
      (.error (.invoiceCreationError "User cancelled invoice posting"),
       [Effect.requestInvoiceConfirmation inv (calculateInvoiceTotals inv)]) ∧
    configureInvoicer profile false saveOutcome =
      (.error (.configurationError "User cancelled configuration setup"),
       [Effect.requestConfigurationConfirmation]) := by
  constructor
  · simp [invoiceFlow, validateAndConfirmInvoice, h]
  · simp [configureInvoicer]

/-- Witness for claim C5 at the example invoice and mock profile. -/
theorem confirmation_denial_aborts_witness :
    validateInvoiceAgainstConfig validInvoice sampleConfig = .ok () ∧
    (invoiceFlow validInvoice sampleConfig false (.ok sampleResponse) =
      (.error (.invoiceCreationError "User cancelled invoice posting"),
       [Effect.requestInvoiceConfirmation validInvoice (calculateInvoiceTotals validInvoice)]) ∧
     configureInvoicer sampleProfile false (.ok ()) =
      (.error (.configurationError "User cancelled configuration setup"),
       [Effect.requestConfigurationConfirmation])) :=
  ⟨rfl, confirmation_denial_aborts validInvoice sampleConfig (.ok sampleResponse)
          sampleProfile (.ok ()) rfl⟩

/-- Claim C6 (counterexample): the claim says any present value other
than 1 in `establecimiento` is rejected, but the value 0 is present,
different from 1, and passes validation because the JavaScript guard
`invoiceData.establecimiento && ...` treats 0 as falsy — the workflow
then requests confirmation and submits. -/
theorem establishment_zero_not_rejected :
    establishmentZeroInvoice.establecimiento = some 0 ∧
    (0 : Int) ≠ 1 ∧
    validateInvoiceAgainstConfig establishmentZeroInvoice sampleConfig = .ok () ∧
    (invoiceFlow establishmentZeroInvoice sampleConfig true (.ok sampleResponse)).2 =
      [Effect.requestInvoiceConfirmation establishmentZeroInvoice
         (calculateInvoiceTotals establishmentZeroInvoice),
       Effect.postSubmitInvoice establishmentZeroInvoice.items
         establishmentZeroInvoice.resumen] :=
  ⟨rfl, by decide, rfl, rfl⟩

/-- Claim C6 (amended): an `establecimiento` or `punto_expedicion`
field that is present with a nonzero value other than 1 makes the
workflow fail before any confirmation request or submission (empty
effect list); a field that is absent, equal to 1, or equal to 0 (falsy
in JavaScript) raises no such rejection. -/
theorem establishment_dispatch_validation (inv : InvoiceData) (config : EkuatiaConfig)
    (cres : Bool) (s : Except String InvoiceResponse) (v w : Int) :
    (inv.establecimiento = some v → v ≠ 0 → v ≠ 1 →
      invoiceFlow inv config cres s =
        (.error (.invoiceCreationError
           "Establishment must be 1 (single establishment constraint)"), [])) ∧
    ((inv.establecimiento = none ∨ inv.establecimiento = some 1) →
      inv.punto_expedicion = some w → w ≠ 0 → w ≠ 1 →
      invoiceFlow inv config cres s =
        (.error (.invoiceCreationError
           "Dispatch point must be 1 (single point constraint)"), [])) ∧
    ((inv.establecimiento = none ∨ inv.establecimiento = some 1) →
      (inv.punto_expedicion = none ∨ inv.punto_expedicion = some 1) →
      validateInvoiceAgainstConfig inv config = .ok ()) := by
  refine ⟨fun h1 h2 h3 => ?_, fun h4 h5 h6 h7 => ?_, fun h4 h5 => ?_⟩
  · have hv : validateInvoiceAgainstConfig inv config =
        .error (.invoiceCreationError
          "Establishment must be 1 (single establishment constraint)") := by
      rw [validate_ignores_document_type]
      simp [validateEstablishment, h1, h2, h3]
    simp [invoiceFlow, validateAndConfirmInvoice, hv]
  · have hv : validateInvoiceAgainstConfig inv config =
        .error (.invoiceCreationError
          "Dispatch point must be 1 (single point constraint)") := by
      rw [validate_ignores_document_type]
      rcases h4 with he | he <;>
        simp [validateEstablishment, validateDispatchPoint, he, h5, h6, h7]
    simp [invoiceFlow, validateAndConfirmInvoice, hv]
  · rw [validate_ignores_document_type]
    rcases h4 with he | he <;> rcases h5 with hp | hp <;>
      simp [validateEstablishment, validateDispatchPoint, he, hp]

/-- Witness for claim C6: `establecimiento = 2` and
`punto_expedicion = 2` are each rejected with an empty effect list,
while the example invoice with both fields absent validates. -/
theorem establishment_dispatch_validation_witness :
    (invoiceFlow establishmentTwoInvoice sampleConfig true (.ok sampleResponse) =
      (.error (.invoiceCreationError
         "Establishment must be 1 (single establishment constraint)"), [])) ∧
    (invoiceFlow dispatchTwoInvoice sampleConfig true (.ok sampleResponse) =
      (.error (.invoiceCreationError
         "Dispatch point must be 1 (single point constraint)"), [])) ∧
    validateInvoiceAgainstConfig validInvoice sampleConfig = .ok () :=
  ⟨(establishment_dispatch_validation establishmentTwoInvoice sampleConfig true
      (.ok sampleResponse) 2 0).1 rfl (by decide) (by decide),
   (establishment_dispatch_validation dispatchTwoInvoice sampleConfig true
      (.ok sampleResponse) 0 2).2.1 (Or.inl rfl) rfl (by decide) (by decide),
   (establishment_dispatch_validation validInvoice sampleConfig true
      (.ok sampleResponse) 0 0).2.2 (Or.inl rfl) (Or.inl rfl)⟩

/-- Claim C7 (confirmed): an entry stored at `storedAt` with TTL `ttl`
is logically absent for every read strictly after `storedAt + ttl`
(`get` returns null, `has` returns false), the default TTL used by
`MockCache.set` is 7776000000 ms = 90 days, and `set` overwrites any
prior entry for the same key. -/
theorem mockCache_expiry_default_overwrite (cache : MockCacheState)
    (storedAt ttl now t0 ttl0 : Int) (key : String) (data d0 : Json)
    (h : now > storedAt + ttl) :
    (MockCache.get (MockCache.set cache storedAt key data ttl) now key).1 = none ∧
    MockCache.has (MockCache.set cache storedAt key data ttl) now key = false ∧
    MockCache.set cache storedAt key data mockCacheDefaultTtlMs key
      = some (data, storedAt + 90 * 24 * 60 * 60 * 1000) ∧
    MockCache.set (MockCache.set cache t0 key d0 ttl0) storedAt key data ttl
      = MockCache.set cache storedAt key data ttl := by
  refine ⟨?_, ?_, ?_, ?_⟩
  · simp [MockCache.get, MockCache.set, h]
  · simp [MockCache.has, MockCache.set, h]
  · simp [MockCache.set, mockCacheDefaultTtlMs]
  · funext k
    by_cases hk : k = key <;> simp [MockCache.set, hk]

/-- Witness for claim C7 on the empty cache: store at time 0 with
TTL 10 and read at time 11. -/
theorem mockCache_expiry_default_overwrite_witness :
    (11 : Int) > 0 + 10 ∧
    ((MockCache.get (MockCache.set (fun _ => none) 0 "ekuatia_config_5452" Json.null 10)
        11 "ekuatia_config_5452").1 = none ∧
     MockCache.has (MockCache.set (fun _ => none) 0 "ekuatia_config_5452" Json.null 10)
        11 "ekuatia_config_5452" = false ∧
     MockCache.set (fun _ => none) 0 "ekuatia_config_5452" Json.null mockCacheDefaultTtlMs
        "ekuatia_config_5452" = some (Json.null, 0 + 90 * 24 * 60 * 60 * 1000) ∧
     MockCache.set (MockCache.set (fun _ => none) 3 "ekuatia_config_5452" Json.null 7)
        0 "ekuatia_config_5452" Json.null 10
       = MockCache.set (fun _ => none) 0 "ekuatia_config_5452" Json.null 10) :=
  ⟨by decide, mockCache_expiry_default_overwrite (fun _ => none) 0 10 11 3 7
      "ekuatia_config_5452" Json.null Json.null (by decide)⟩

/-- Claim C8 (confirmed): `CacheManager.invalidateConfig` is
idempotent on the cache state — two consecutive invalidations for the
same RUC leave the map exactly as one does, and after the first call
the entry is already absent. -/
theorem invalidateConfig_idempotent (cache : CacheManagerState) (ruc : String)
    (t t' : CacheInvalidationTrigger) :
    (CacheManager.invalidateConfig (CacheManager.invalidateConfig cache ruc t).1 ruc t').1
      = (CacheManager.invalidateConfig cache ruc t).1 ∧
    (CacheManager.invalidateConfig cache ruc t).1 ("ekuatia_config_" ++ ruc) = none := by
  constructor
  · funext k
    by_cases hk : k = "ekuatia_config_" ++ ruc <;> simp [CacheManager.invalidateConfig, hk]
  · simp [CacheManager.invalidateConfig]

/-- Claim C9 (confirmed): in `mockLoginApi` the RUC_INACTIVE and
APPROVAL_NOT_FOUND branches are unreachable — any username other than
"5452" already returns invalid credentials before the "9999999" and
"8888888" checks — so the function only ever returns the success
response or the invalid-credentials error. -/
theorem mockLoginApi_dead_branches (c : LoginCredentials) :
    mockLoginApi c ≠ .rucInactive ∧ mockLoginApi c ≠ .approvalNotFound ∧
    (mockLoginApi c = .loginResponse ∨ mockLoginApi c = .invalidCredentials) := by
  unfold mockLoginApi
  by_cases h1 : c.username = MOCK_CREDENTIALS.username
  · by_cases h2 : c.password = MOCK_CREDENTIALS.password
    · simp [h1, h2, MOCK_CREDENTIALS]
    · simp [h1, h2]
  · simp [h1]

/-- Claim C10 (counterexample): the claim says two configurations
differing only in an optional field being absent versus undefined are
reported as mismatched, but `JSON.stringify` drops undefined-valued
properties, so the two distinct objects below serialize identically
and `configsMatch` reports them as matching. -/
theorem configsMatch_undefined_field_matches :
    configsMatch
      (Json.obj [("modality", Json.str "BASICA"), ("logo", Json.null)])
      (Json.obj [("modality", Json.str "BASICA"), ("logo", Json.null),
                 ("direccion", Json.undef)]) = true ∧
    Json.obj [("modality", Json.str "BASICA"), ("logo", Json.null)]
      ≠ Json.obj [("modality", Json.str "BASICA"), ("logo", Json.null),
                  ("direccion", Json.undef)] := by
  refine ⟨rfl, ?_⟩
  simp

/-- Claim C10 (amended): `configsMatch` returns true exactly when the
`JSON.stringify` serializations coincide; two objects holding the same
field set in a different insertion order serialize differently and are
reported as mismatched, while an object extended with an
undefined-valued optional field serializes identically and is reported
as matching. -/
theorem configsMatch_characterization (c1 c2 : Json) :
    (configsMatch c1 c2 = true ↔ Json.stringify c1 = Json.stringify c2) ∧
    List.Perm [("modality", Json.str "BASICA"), ("logo", Json.null)]
              [("logo", Json.null), ("modality", Json.str "BASICA")] ∧
    configsMatch (Json.obj [("modality", Json.str "BASICA"), ("logo", Json.null)])
                 (Json.obj [("logo", Json.null), ("modality", Json.str "BASICA")]) = false := by
  refine ⟨?_, List.Perm.swap _ _ _, rfl⟩
  simp [configsMatch]

end MaranFill
